import Mathlib

/- Shallow embedding of the inline-svg-lazy-loader widget.  Variant A is
   the class in src/inline-svg-lazy-loader.js (one instance per element);
   variant B is the duplicate class appearing at the bottom of
   webpack.config.js.  DOM elements are rose trees of tag name, attribute
   list and children; a JS string-or-undefined is an Option String; a
   thrown TypeError is the error of an Except computation. -/

/-- JS truthiness of a dataset entry: undefined and the empty string are
falsy, every other string is truthy. -/
def truthy : Option String → Bool
  | none => false
  | some s => !(s == "")

/-- JS string coercion of a string-or-undefined value: undefined
stringifies to "undefined", as in classList.add(undefined). -/
def jsString : Option String → String
  | none => "undefined"
  | some s => s

/-- Splitting a character list on a separator character, as JS
String.split does with a one-character separator string. -/
def splitChars (sep : Char) : List Char → List (List Char)
  | [] => [[]]
  | c :: rest =>
    if c == sep then [] :: splitChars sep rest
    else
      match splitChars sep rest with
      | [] => [[c]]
      | g :: gs => (c :: g) :: gs

/-- JS String.split with a one-character separator. -/
def jsSplit (s : String) (sep : Char) : List String :=
  (splitChars sep s.data).map String.mk

/-- JS String.trim on ASCII whitespace. -/
def jsTrim (s : String) : String :=
  String.mk (((s.data.dropWhile Char.isWhitespace).reverse.dropWhile
    Char.isWhitespace).reverse)

/-- A DOM element: tag name, attribute list (names are unique in a live
DOM element), children. -/
inductive Node where
  | node (tag : String) (attrs : List (String × String)) (children : List Node)

def Node.tag : Node → String
  | .node t _ _ => t

def Node.attrs : Node → List (String × String)
  | .node _ a _ => a

def Node.children : Node → List Node
  | .node _ _ c => c

/-- Element.setAttribute: replace the value of an existing attribute,
otherwise append the new attribute. -/
def setAttribute (n : Node) (name val : String) : Node :=
  match n with
  | .node t a c =>
    if a.any (fun p => p.1 == name) then
      .node t (a.map (fun p => if p.1 == name then (p.1, val) else p)) c
    else
      .node t (a ++ [(name, val)]) c

/-- Element.removeAttribute. -/
def removeAttribute (n : Node) (name : String) : Node :=
  match n with
  | .node t a c => .node t (a.filter (fun p => !(p.1 == name))) c

/-- The data attributes read by the widget from element.dataset. -/
structure Dataset where
  src : Option String
  removeAttrs : Option String
  addAttrs : Option String
  setSvgSize : Option String
  removeScripts : Option String

/-- The placeholder element: its dataset, whether it still has a parent
node at swap time, and its rendered width and height. -/
structure Element where
  dataset : Dataset
  hasParent : Bool
  width : Nat
  height : Nat

/-- The plugin options object; the loadingClass key may be absent
(undefined). -/
structure Options where
  loadingClass : Option String

/-- The default options object built in the constructor. -/
def defaultOptions : Options := { loadingClass := some "js-svg-loading" }

/-- this.options = options || defaults: a non-null options argument is
taken as is, with no merging of default keys. -/
def constructorOptions : Option Options → Options
  | none => defaultOptions
  | some o => o

/-- Body of removeAttrs: split the declared list on commas, trim each
name, and removeAttribute it from the root. -/
def removeAttrsNode (s : String) (n : Node) : Node :=
  (jsSplit s ',').foldl (fun m attr => removeAttribute m (jsTrim attr)) n

mutual
/-- Removal of every descendant script element, as
querySelectorAll(&quot;script&quot;) followed by script.remove() does. -/
def pruneScripts : Node → Node
  | .node t a c => .node t a (pruneScriptsList c)

/-- List version of pruneScripts: drop script children, recurse into the
others. -/
def pruneScriptsList : List Node → List Node
  | [] => []
  | m :: ms =>
    if m.tag == "script" then pruneScriptsList ms
    else pruneScripts m :: pruneScriptsList ms
end

/-- The test performed on each root attribute name by removeScripts: the
name starts with "on", case-insensitively. -/
def startsWithOn (s : String) : Bool :=
  match s.data with
  | c1 :: c2 :: _ => (c1.toLower == 'o') && (c2.toLower == 'n')
  | _ => false

/-- Body of removeScripts: delete every descendant script element and drop
the root attributes whose name starts with "on".  Descendant attributes
are left untouched. -/
def removeScriptsNode (n : Node) : Node :=
  match n with
  | .node t a c =>
    .node t (a.filter (fun p => !(startsWithOn p.1))) (pruneScriptsList c)

/-- A character of the class used on both sides of the colon in the
addAttrs pattern: word characters, digits, hyphen, whitespace, asterisk. -/
def isClassChar (c : Char) : Bool :=
  c.isAlphanum || c == '_' || c == '-' || c == '*' || c.isWhitespace

/-- Global scan of the addAttrs pattern (class run, colon, optional
whitespace, class run): at each position a match needs a nonempty run of
class characters, a colon, and a nonempty run of class characters
(whitespace belongs to the class, so the optional-whitespace part folds
into the final run); on failure the scan advances one character, on
success it resumes after the match.  The fuel argument starts at the
length of the list, which bounds the recursion, so the fuel-zero branch is
never reached from scanMatches. -/
def scanMatchesAux : Nat → List Char → List String
  | _, [] => []
  | 0, _ :: _ => []
  | fuel + 1, c :: rest =>
    if isClassChar c then
      match (c :: rest).dropWhile isClassChar with
      | ':' :: r2 =>
        match r2.takeWhile isClassChar with
        | [] => scanMatchesAux fuel rest
        | v =>
          (String.mk ((c :: rest).takeWhile isClassChar) ++ ":" ++ String.mk v)
            :: scanMatchesAux fuel (r2.dropWhile isClassChar)
      | _ => scanMatchesAux fuel rest
    else scanMatchesAux fuel rest

/-- All matches of the addAttrs pattern in a character list. -/
def scanMatches (l : List Char) : List String := scanMatchesAux l.length l

/-- JS String.match with the global addAttrs pattern: null (none) when the
string contains no match. -/
def jsMatch (s : String) : Option (List String) :=
  match scanMatches s.data with
  | [] => none
  | ms => some ms

/-- One iteration of the addAttrs forEach: split the matched pair on the
colon, trim name and value, setAttribute them on the root.  A matched pair
always contains exactly one colon. -/
def applyAddAttr (n : Node) (m : String) : Node :=
  match jsSplit m ':' with
  | attrName :: attrValue :: _ => setAttribute n (jsTrim attrName) (jsTrim attrValue)
  | _ => n

/-- Application of all matched name:value pairs to the root. -/
def addAttrsNode (ms : List String) (n : Node) : Node := ms.foldl applyAddAttr n

/-- Body of setSvgSize: copy the rendered width and height of the element
onto the root. -/
def setSvgSizeNode (el : Element) (n : Node) : Node :=
  setAttribute (setAttribute n "width" (toString el.width)) "height"
    (toString el.height)

/-- A thrown JS TypeError (a method call or a forEach on null or
undefined). -/
inductive JsError where
  | typeError
deriving DecidableEq

/-- The removeAttrs step of the pipeline; a truthy flag with a null root
throws inside removeAttribute. -/
def removeAttrsStep (ds : Dataset) (svg : Option Node) :
    Except JsError (Option Node) :=
  if truthy ds.removeAttrs then
    match svg with
    | none => .error .typeError
    | some n => .ok (some (removeAttrsNode (jsString ds.removeAttrs) n))
  else .ok svg

/-- The removeScripts step; a truthy flag with a null root throws inside
querySelectorAll. -/
def removeScriptsStep (ds : Dataset) (svg : Option Node) :
    Except JsError (Option Node) :=
  if truthy ds.removeScripts then
    match svg with
    | none => .error .typeError
    | some n => .ok (some (removeScriptsNode n))
  else .ok svg

/-- The addAttrs step: the match result is iterated with no null guard, so
a truthy string that matches no pair throws on the forEach; with a null
root, setAttribute throws inside the first iteration. -/
def addAttrsStep (ds : Dataset) (svg : Option Node) :
    Except JsError (Option Node) :=
  if truthy ds.addAttrs then
    match jsMatch (jsString ds.addAttrs) with
    | none => .error .typeError
    | some ms =>
      match svg with
      | none => .error .typeError
      | some n => .ok (some (addAttrsNode ms n))
  else .ok svg

/-- The setSvgSize step; a truthy flag with a null root throws inside
setAttribute. -/
def setSvgSizeStep (ds : Dataset) (el : Element) (svg : Option Node) :
    Except JsError (Option Node) :=
  if truthy ds.setSvgSize then
    match svg with
    | none => .error .typeError
    | some n => .ok (some (setSvgSizeNode el n))
  else .ok svg

/-- The DOM swap: replaceChild throws on a null new child; with no parent
node nothing happens and no error is raised. -/
def swapStep (hasParent : Bool) (svg : Option Node) :
    Except JsError (Option Node) :=
  if hasParent then
    match svg with
    | none => .error .typeError
    | some n => .ok (some n)
  else .ok none

/-- replaceImgWithSvg: the four transform steps in source order, then the
swap; a thrown TypeError aborts the remaining steps.  An ok result carries
the node swapped into the DOM, if any. -/
def replaceImgWithSvg (el : Element) (svg : Option Node) :
    Except JsError (Option Node) :=
  match removeAttrsStep el.dataset svg with
  | .error e => .error e
  | .ok s1 =>
    match removeScriptsStep el.dataset s1 with
    | .error e => .error e
    | .ok s2 =>
      match addAttrsStep el.dataset s2 with
      | .error e => .error e
      | .ok s3 =>
        match setSvgSizeStep el.dataset el s3 with
        | .error e => .error e
        | .ok s4 => swapStep el.hasParent s4

/-- The observable effects of one getSvg run, in order. -/
inductive Ev where
  | addClass (c : String)
  | fetchIssued (url : Option String)
  | readBody
  | logError
  | swap
  | removeClass (c : String)
deriving DecidableEq

/-- Recognizer for removeClass events. -/
def isRemoveClassEv : Ev → Bool
  | .removeClass _ => true
  | _ => false

/-- Recognizer for swap events. -/
def isSwapEv : Ev → Bool
  | .swap => true
  | _ => false

/-- The outcome of the awaited fetch call. -/
inductive FetchOutcome where
  | ok (body : String)
  | notOk (status : Nat)
  | netError

/-- getSvg of src/inline-svg-lazy-loader.js: add the loading class, fetch
the dataset src, on an ok response read the body and run the transform,
log a thrown error, and always remove the loading class in the finally
block.  The parse argument stands for the browser DOMParser together with
querySelector("svg").  Returns the event trace and the node swapped into
the DOM, if any. -/
def getSvgA (parse : String → Option Node) (opts : Options) (el : Element)
    (f : FetchOutcome) : List Ev × Option Node :=
  let c := jsString opts.loadingClass
  let pre := [Ev.addClass c, Ev.fetchIssued el.dataset.src]
  match f with
  | .netError => (pre ++ [Ev.logError, Ev.removeClass c], none)
  | .notOk _ => (pre ++ [Ev.removeClass c], none)
  | .ok body =>
    match replaceImgWithSvg el (parse body) with
    | .error _ => (pre ++ [Ev.readBody, Ev.logError, Ev.removeClass c], none)
    | .ok res =>
      (pre ++ [Ev.readBody]
           ++ (match res with | some _ => [Ev.swap] | none => [])
           ++ [Ev.removeClass c], res)

/-- getSvg of the webpack.config.js variant: the same flow but with no
finally block and no classList.remove call anywhere, so the loading class
is never removed on any outcome. -/
def getSvgB (parse : String → Option Node) (opts : Options) (el : Element)
    (f : FetchOutcome) : List Ev × Option Node :=
  let c := jsString opts.loadingClass
  let pre := [Ev.addClass c, Ev.fetchIssued el.dataset.src]
  match f with
  | .netError => (pre ++ [Ev.logError], none)
  | .notOk _ => (pre, none)
  | .ok body =>
    match replaceImgWithSvg el (parse body) with
    | .error _ => (pre ++ [Ev.readBody, Ev.logError], none)
    | .ok res =>
      (pre ++ [Ev.readBody]
           ++ (match res with | some _ => [Ev.swap] | none => []), res)

/-- Per-element watcher state: whether the observer still observes the
element, and how many fetches were started for it. -/
structure WatcherState where
  observing : Bool
  fetchCount : Nat
deriving DecidableEq

/-- The IntersectionObserver callback of addInlineSvgObserver: for each
entry, an intersecting report starts a fetch and unobserves the element. -/
def observerCallback (st : WatcherState) (entries : List Bool) : WatcherState :=
  entries.foldl
    (fun s isIntersecting =>
      if isIntersecting then { observing := false, fetchCount := s.fetchCount + 1 }
      else s)
    st

/-- Delivery of one callback invocation: the browser hands the callback
every entry queued for the batch at once, and the forEach of the source
processes each of them, even after an earlier entry of the same batch has
already unobserved the element; only once observing is false are no
further batches delivered for the element. -/
def deliverBatch (st : WatcherState) (entries : List Bool) : WatcherState :=
  if st.observing then observerCallback st entries else st

/-- A whole run of the watcher over a sequence of delivered callback
batches, starting from the freshly registered observer. -/
def runWatcherBatches (batches : List (List Bool)) : WatcherState :=
  batches.foldl deliverBatch { observing := true, fetchCount := 0 }

/-- The node an ok pipeline outcome swapped into the DOM; a thrown error
or an abandoned swap yields none. -/
def swappedNode : Except JsError (Option Node) → Option Node
  | .ok (some n) => some n
  | _ => none

/-- A sample parse oracle returning a bare svg root for every body. -/
def parseSvgOnly : String → Option Node := fun _ => some (.node "svg" [] [])

/-- A sample parse oracle that finds no svg root in any body. -/
def parseNone : String → Option Node := fun _ => none

/-- A sample placeholder with a source URL, no transform flags, and a
parent node. -/
def elPlain : Element :=
  { dataset := { src := some "a.svg", removeAttrs := none, addAttrs := none,
                 setSvgSize := none, removeScripts := none },
    hasParent := true, width := 0, height := 0 }

/-- A sample placeholder with no data-src attribute. -/
def elNoSrc : Element :=
  { dataset := { src := none, removeAttrs := none, addAttrs := none,
                 setSvgSize := none, removeScripts := none },
    hasParent := true, width := 0, height := 0 }

theorem observerCallback_count (entries : List Bool) (st : WatcherState) :
    (observerCallback st entries).fetchCount =
      st.fetchCount + entries.countP (fun b => b) := by
  induction entries generalizing st with
  | nil => simp [observerCallback]
  | cons b bs ih =>
    cases b with
    | true =>
      have h : observerCallback st (true :: bs) =
          observerCallback
            { observing := false, fetchCount := st.fetchCount + 1 } bs := rfl
      rw [h, ih]
      simp [List.countP_cons]
      omega
    | false =>
      have h : observerCallback st (false :: bs) = observerCallback st bs := rfl
      rw [h, ih]
      simp [List.countP_cons]

theorem observerCallback_observing (entries : List Bool) (st : WatcherState) :
    (observerCallback st entries).observing =
      (st.observing && !(entries.any (fun b => b))) := by
  induction entries generalizing st with
  | nil => simp [observerCallback]
  | cons b bs ih =>
    cases b with
    | true =>
      have h : observerCallback st (true :: bs) =
          observerCallback
            { observing := false, fetchCount := st.fetchCount + 1 } bs := rfl
      rw [h, ih]
      simp
    | false =>
      have h : observerCallback st (false :: bs) = observerCallback st bs := rfl
      rw [h, ih]
      simp

theorem deliverBatch_not_observing (st : WatcherState) (b : List Bool)
    (h : st.observing = false) : deliverBatch st b = st := by
  simp [deliverBatch, h]

theorem foldl_deliverBatch_not_observing (l : List (List Bool))
    (st : WatcherState) (h : st.observing = false) :
    l.foldl deliverBatch st = st := by
  induction l with
  | nil => rfl
  | cons b bs ih => rw [List.foldl_cons, deliverBatch_not_observing st b h]; exact ih

theorem foldl_deliverBatch_count (l : List (List Bool)) (st : WatcherState)
    (h : ∀ b ∈ l, b.countP (fun x => x) ≤ 1) :
    (l.foldl deliverBatch st).fetchCount ≤
      st.fetchCount + (if st.observing then 1 else 0) := by
  induction l generalizing st with
  | nil => simp
  | cons b bs ih =>
    rw [List.foldl_cons]
    have hb : b.countP (fun x => x) ≤ 1 := h b (List.mem_cons_self b bs)
    have hbs : ∀ x ∈ bs, x.countP (fun y => y) ≤ 1 :=
      fun x hx => h x (List.mem_cons_of_mem b hx)
    cases hob : st.observing with
    | false =>
      rw [deliverBatch_not_observing st b hob]
      have h1 := ih st hbs
      rw [hob] at h1
      simpa using h1
    | true =>
      have hd : deliverBatch st b = observerCallback st b := by
        simp [deliverBatch, hob]
      rw [hd]
      cases hany : b.any (fun x => x) with
      | true =>
        have hobs2 : (observerCallback st b).observing = false := by
          rw [observerCallback_observing, hany]
          simp
        rw [foldl_deliverBatch_not_observing bs (observerCallback st b) hobs2,
          observerCallback_count]
        simp
        omega
      | false =>
        have hcnt : b.countP (fun x => x) = 0 := by
          rw [List.countP_eq_zero]
          intro x hx
          have hall := List.any_eq_false.mp hany
          exact hall x hx
        have h1 := ih (observerCallback st b) hbs
        rw [observerCallback_observing, hany, hob] at h1
        rw [observerCallback_count, hcnt] at h1
        simp at h1
        simpa using h1

theorem foldl_removeAttribute (l : List String) (n : Node) :
    l.foldl (fun m attr => removeAttribute m (jsTrim attr)) n =
      Node.node n.tag
        (n.attrs.filter (fun p => l.all (fun attr => !(p.1 == jsTrim attr))))
        n.children := by
  induction l generalizing n with
  | nil =>
    cases n with
    | node t a c => simp [Node.tag, Node.attrs, Node.children]
  | cons x xs ih =>
    cases n with
    | node t a c =>
      rw [List.foldl_cons]
      have hx : removeAttribute (Node.node t a c) (jsTrim x) =
          Node.node t (a.filter (fun p => !(p.1 == jsTrim x))) c := rfl
      rw [hx, ih]
      simp only [Node.tag, Node.attrs, Node.children, List.filter_filter]
      congr 1
      apply List.filter_congr
      intro p _
      simp [List.all_cons, Bool.and_comm]

mutual
/-- No element of the tree, the root excepted, is a script element. -/
def nodeClean : Node → Bool
  | .node _ _ c => listClean c

/-- List version of nodeClean. -/
def listClean : List Node → Bool
  | [] => true
  | m :: ms => (!(m.tag == "script") && nodeClean m) && listClean ms
end

theorem pruneScripts_tag (n : Node) : (pruneScripts n).tag = n.tag := by
  cases n with
  | node t a c => simp only [pruneScripts, Node.tag]

theorem pruneScripts_attrs (n : Node) : (pruneScripts n).attrs = n.attrs := by
  cases n with
  | node t a c => simp only [pruneScripts, Node.attrs]

mutual
theorem pruneScripts_clean : (n : Node) → nodeClean (pruneScripts n) = true
  | .node t a c => by
    simp only [pruneScripts, nodeClean]
    exact pruneScriptsList_clean c

theorem pruneScriptsList_clean : (c : List Node) →
    listClean (pruneScriptsList c) = true
  | [] => by simp only [pruneScriptsList, listClean]
  | m :: ms => by
    by_cases h : (m.tag == "script") = true
    · simp only [pruneScriptsList, h, if_true]
      exact pruneScriptsList_clean ms
    · simp only [pruneScriptsList, h, if_false, listClean, pruneScripts_tag m]
      simp [h, pruneScripts_clean m, pruneScriptsList_clean ms]
end

theorem replaceImg_none_characterization (el : Element) :
    replaceImgWithSvg el none =
      (if truthy el.dataset.removeAttrs || truthy el.dataset.removeScripts ||
          truthy el.dataset.addAttrs || truthy el.dataset.setSvgSize ||
          el.hasParent
       then .error JsError.typeError else .ok none) := by
  cases hm : jsMatch (jsString el.dataset.addAttrs) <;>
  cases h1 : truthy el.dataset.removeAttrs <;>
  cases h2 : truthy el.dataset.removeScripts <;>
  cases h3 : truthy el.dataset.addAttrs <;>
  cases h4 : truthy el.dataset.setSvgSize <;>
  cases h5 : el.hasParent <;>
  simp [replaceImgWithSvg, removeAttrsStep, removeScriptsStep, addAttrsStep,
        setSvgSizeStep, swapStep, h1, h2, h3, h4, h5, hm]

/-- C1: the claim says the loading class is added before the request and
removed after the attempt concludes in both implementation variants.  The
src/inline-svg-lazy-loader.js variant (getSvgA) does end every outcome
with a removeClass event, but the webpack.config.js variant (getSvgB)
emits no removeClass event on any outcome: its getSvg has no finally block
and never calls classList.remove, so the cleanup half of the claim fails
for that variant. -/
theorem getSvgB_never_clears_loading_class :
    ((getSvgB parseSvgOnly { loadingClass := some "load" } elPlain
        .netError).1.all (fun e => !(isRemoveClassEv e)) = true) ∧
    ((getSvgB parseSvgOnly { loadingClass := some "load" } elPlain
        (.notOk 404)).1.all (fun e => !(isRemoveClassEv e)) = true) ∧
    ((getSvgB parseSvgOnly { loadingClass := some "load" } elPlain
        (.ok "svgtext")).1.all (fun e => !(isRemoveClassEv e)) = true) ∧
    ((getSvgA parseSvgOnly { loadingClass := some "load" } elPlain
        .netError).1.getLast? = some (.removeClass "load")) ∧
    ((getSvgA parseSvgOnly { loadingClass := some "load" } elPlain
        (.notOk 404)).1.getLast? = some (.removeClass "load")) ∧
    ((getSvgA parseSvgOnly { loadingClass := some "load" } elPlain
        (.ok "svgtext")).1.getLast? = some (.removeClass "load")) :=
  ⟨rfl, rfl, rfl, rfl, rfl, rfl⟩

/-- C2 counterexample: the claim says the fetch is invoked at most once
per element because the observer is unregistered on the first intersecting
report.  But the callback of the source forEaches every entry of a
delivered batch, and unobserve cannot retract the entries of the batch
being processed: one delivered batch carrying two intersecting reports
(possible with threshold 0.1 when the element crosses the threshold more
than once between callback dispatches) invokes getSvg twice, so the fetch
count reaches 2. -/
theorem watcher_double_fetch_in_one_batch :
    (runWatcherBatches [[true, true]]).fetchCount = 2 ∧
    (observerCallback { observing := true, fetchCount := 0 }
        [true, true]).fetchCount = 2 :=
  ⟨rfl, rfl⟩

/-- C2 amended: the first delivered batch containing an intersecting
report does unregister the observer, so no later callback batch is
delivered for the element and a second intersection report arriving in a
subsequent callback can never cause a second fetch; consequently the fetch
is invoked at most once whenever every delivered batch carries at most one
intersecting entry.  Within a single delivered batch, however, the forEach
processes every entry, so a batch with two intersecting entries starts two
fetches. -/
theorem watcher_at_most_once_across_batches (b : List Bool)
    (rest batches : List (List Bool))
    (h1 : b.any (fun x => x) = true)
    (h2 : ∀ batch ∈ batches, batch.countP (fun x => x) ≤ 1) :
    runWatcherBatches (b :: rest) = runWatcherBatches [b] ∧
    (∀ k : Nat,
      (deliverBatch { observing := true, fetchCount := k } b).observing = false) ∧
    (runWatcherBatches batches).fetchCount ≤ 1 := by
  refine ⟨?_, ?_, ?_⟩
  · rw [runWatcherBatches, runWatcherBatches, List.foldl_cons, List.foldl_cons,
      List.foldl_nil]
    apply foldl_deliverBatch_not_observing
    have hd : deliverBatch { observing := true, fetchCount := 0 } b =
        observerCallback { observing := true, fetchCount := 0 } b := by
      simp [deliverBatch]
    rw [hd, observerCallback_observing, h1]
    simp
  · intro k
    have hd : deliverBatch { observing := true, fetchCount := k } b =
        observerCallback { observing := true, fetchCount := k } b := by
      simp [deliverBatch]
    rw [hd, observerCallback_observing, h1]
    simp
  · have h := foldl_deliverBatch_count batches
      { observing := true, fetchCount := 0 } h2
    simpa [runWatcherBatches] using h

/-- Witness for C2 amended: a first batch of two intersecting reports
blocks every later batch, and a schedule whose batches each carry at most
one intersecting report fetches at most once. -/
theorem watcher_at_most_once_across_batches_witness :
    ([true, true].any (fun x => x) = true) ∧
    (∀ batch ∈ [[false, true], [false], [true]],
      batch.countP (fun x => x) ≤ 1) ∧
    (runWatcherBatches ([true, true] :: [[true]]) =
        runWatcherBatches [[true, true]] ∧
     (∀ k : Nat,
       (deliverBatch { observing := true, fetchCount := k }
          [true, true]).observing = false) ∧
     (runWatcherBatches [[false, true], [false], [true]]).fetchCount ≤ 1) :=
  ⟨by decide, by decide,
   watcher_at_most_once_across_batches [true, true] [[true]]
     [[false, true], [false], [true]] (by decide) (by decide)⟩

/-- C3: the claim says a non-empty data-add-attrs string matching no pairs
is guarded and degrades to a no-op.  The code has no such guard: for the
truthy input "!!!" the match result is null and the forEach on it throws a
TypeError, so the add-attributes step of the pipeline throws instead of
degrading to a no-op. -/
theorem addAttrs_throws_on_unmatched :
    jsMatch "!!!" = none ∧
    addAttrsStep
        { src := none, removeAttrs := none, addAttrs := some "!!!",
          setSvgSize := none, removeScripts := none }
        (some (.node "svg" [] [])) = .error JsError.typeError :=
  ⟨rfl, rfl⟩

/-- C5: on a non-ok response the attempt is exactly add class, issue
fetch, (in variant A) remove class: the body is never read, no transform
step or swap runs, nothing is retried, and the placeholder is left in
place (no node is substituted), in both variants. -/
theorem notOk_no_transform (parse : String → Option Node) (opts : Options)
    (el : Element) (status : Nat) :
    getSvgA parse opts el (.notOk status) =
      ([Ev.addClass (jsString opts.loadingClass),
        Ev.fetchIssued el.dataset.src,
        Ev.removeClass (jsString opts.loadingClass)], none) ∧
    getSvgB parse opts el (.notOk status) =
      ([Ev.addClass (jsString opts.loadingClass),
        Ev.fetchIssued el.dataset.src], none) :=
  ⟨rfl, rfl⟩

/-- C4: with the script-removal flag truthy, the step turns the root into
removeScriptsNode of it: the result has no script descendant, the root
keeps no attribute whose name starts with "on" (case-insensitively), the
children are only pruned of script elements, and pruning never touches the
attributes of any surviving descendant, so on-attributes below the root
survive. -/
theorem removeScripts_sanitizes (ds : Dataset) (n : Node)
    (h : truthy ds.removeScripts = true) :
    removeScriptsStep ds (some n) = .ok (some (removeScriptsNode n)) ∧
    nodeClean (removeScriptsNode n) = true ∧
    (∀ p ∈ (removeScriptsNode n).attrs, startsWithOn p.1 = false) ∧
    (removeScriptsNode n).children = pruneScriptsList n.children ∧
    (∀ m : Node, (pruneScripts m).attrs = m.attrs) := by
  refine ⟨by simp [removeScriptsStep, h], ?_, ?_, ?_, pruneScripts_attrs⟩
  · cases n with
    | node t a c =>
      simp only [removeScriptsNode, nodeClean]
      exact pruneScriptsList_clean c
  · cases n with
    | node t a c =>
      intro p hp
      simp only [removeScriptsNode, Node.attrs] at hp
      have := List.of_mem_filter hp
      simpa using this
  · cases n with
    | node t a c => simp only [removeScriptsNode, Node.children]

/-- Witness for C4 on a concrete svg root carrying an onclick attribute, a
script child and a g child with an onload attribute. -/
theorem removeScripts_sanitizes_witness :
    truthy (Dataset.mk none none none none (some "true")).removeScripts = true ∧
    (removeScriptsStep (Dataset.mk none none none none (some "true"))
        (some (Node.node "svg" [("onclick", "alert(1)"), ("fill", "red")]
          [Node.node "script" [] [], Node.node "g" [("onload", "x")] []])) =
      .ok (some (removeScriptsNode
        (Node.node "svg" [("onclick", "alert(1)"), ("fill", "red")]
          [Node.node "script" [] [], Node.node "g" [("onload", "x")] []]))) ∧
    nodeClean (removeScriptsNode
        (Node.node "svg" [("onclick", "alert(1)"), ("fill", "red")]
          [Node.node "script" [] [], Node.node "g" [("onload", "x")] []])) = true ∧
    (∀ p ∈ (removeScriptsNode
        (Node.node "svg" [("onclick", "alert(1)"), ("fill", "red")]
          [Node.node "script" [] [], Node.node "g" [("onload", "x")] []])).attrs,
        startsWithOn p.1 = false) ∧
    (removeScriptsNode
        (Node.node "svg" [("onclick", "alert(1)"), ("fill", "red")]
          [Node.node "script" [] [], Node.node "g" [("onload", "x")] []])).children =
      pruneScriptsList
        (Node.node "svg" [("onclick", "alert(1)"), ("fill", "red")]
          [Node.node "script" [] [], Node.node "g" [("onload", "x")] []]).children ∧
    (∀ m : Node, (pruneScripts m).attrs = m.attrs)) :=
  ⟨by decide,
   removeScripts_sanitizes (Dataset.mk none none none none (some "true"))
     (Node.node "svg" [("onclick", "alert(1)"), ("fill", "red")]
       [Node.node "script" [] [], Node.node "g" [("onload", "x")] []])
     (by decide)⟩

/-- C6: with a truthy data-remove-attrs list, the step keeps exactly the
root attributes whose name equals none of the comma-separated,
whitespace-trimmed names of the list: every listed name is removed, a
listed name not present on the root removes nothing, and every other
attribute is retained. -/
theorem removeAttrs_filters (ds : Dataset) (s : String) (n : Node)
    (h1 : ds.removeAttrs = some s) (h2 : s ≠ "") :
    removeAttrsStep ds (some n) =
      .ok (some (Node.node n.tag
        (n.attrs.filter
          (fun p => (jsSplit s ',').all (fun attr => !(p.1 == jsTrim attr))))
        n.children)) := by
  have hts : truthy (some s) = true := by
    simpa [truthy] using h2
  simp only [removeAttrsStep, h1, hts, if_true]
  rw [show jsString (some s) = s from rfl]
  rw [show removeAttrsNode s n =
    (jsSplit s ',').foldl (fun m attr => removeAttribute m (jsTrim attr)) n from rfl]
  rw [foldl_removeAttribute]

/-- Witness for C6: the round-trip of the claim, an svg root with foo="1"
bar="2" and the removal list "foo", keeps bar and loses foo. -/
theorem removeAttrs_filters_witness :
    (Dataset.mk none (some "foo") none none none).removeAttrs = some "foo" ∧
    "foo" ≠ "" ∧
    removeAttrsStep (Dataset.mk none (some "foo") none none none)
        (some (Node.node "svg" [("foo", "1"), ("bar", "2")] [])) =
      .ok (some (Node.node "svg" [("bar", "2")] [])) := by
  refine ⟨rfl, by decide, ?_⟩
  have h := removeAttrs_filters (Dataset.mk none (some "foo") none none none)
    "foo" (Node.node "svg" [("foo", "1"), ("bar", "2")] []) rfl (by decide)
  rw [h]
  rfl

/-- C7 counterexample: the claim says that with no svg root extracted the
downstream steps and the swap operate on no node without crashing.  For a
placeholder that still has a parent node, the swap calls replaceChild with
a null new child, which throws a TypeError rather than silently doing
nothing. -/
theorem parse_failure_not_silent :
    replaceImgWithSvg
        { dataset := { src := none, removeAttrs := none, addAttrs := none,
                       setSvgSize := none, removeScripts := none },
          hasParent := true, width := 0, height := 0 } none =
      .error JsError.typeError := rfl

/-- C7 amended: when parsing yields no svg root, no node is ever
substituted into the DOM and getSvg still completes its trace with no swap
event (the thrown TypeError is caught and logged inside getSvg, so nothing
escapes); but the run is a silent no-op only when every transform flag is
falsy and the placeholder has no parent node — with a parent the swap
throws a TypeError that getSvg catches. -/
theorem parse_failure_no_substitution (parse : String → Option Node)
    (opts : Options) (el : Element) (body : String)
    (hp : parse body = none) :
    swappedNode (replaceImgWithSvg el none) = none ∧
    (getSvgA parse opts el (.ok body)).2 = none ∧
    (getSvgA parse opts el (.ok body)).1.all (fun e => !(isSwapEv e)) = true ∧
    (el.hasParent = true →
      replaceImgWithSvg el none = .error JsError.typeError) ∧
    ((truthy el.dataset.removeAttrs = false ∧
      truthy el.dataset.removeScripts = false ∧
      truthy el.dataset.addAttrs = false ∧
      truthy el.dataset.setSvgSize = false ∧
      el.hasParent = false) →
      replaceImgWithSvg el none = .ok none) := by
  have hc := replaceImg_none_characterization el
  have hdisj : replaceImgWithSvg el none = Except.error JsError.typeError ∨
      replaceImgWithSvg el none = Except.ok none := by
    rw [hc]
    by_cases hcond : (truthy el.dataset.removeAttrs ||
        truthy el.dataset.removeScripts || truthy el.dataset.addAttrs ||
        truthy el.dataset.setSvgSize || el.hasParent) = true
    · left; simp [hcond]
    · right; simp [hcond]
  refine ⟨?_, ?_, ?_, ?_, ?_⟩
  · rcases hdisj with h | h <;> rw [h] <;> rfl
  · rcases hdisj with h | h <;> simp [getSvgA, hp, h]
  · rcases hdisj with h | h <;> simp [getSvgA, hp, h, isSwapEv]
  · intro h5
    rw [hc]
    simp [h5]
  · rintro ⟨ha, hb, hcc, hd, he⟩
    rw [hc]
    simp [ha, hb, hcc, hd, he]

/-- Witness for C7 amended: a parse oracle finding no root, over a plain
placeholder with a parent. -/
theorem parse_failure_no_substitution_witness :
    parseNone "x" = none ∧
    (swappedNode (replaceImgWithSvg elPlain none) = none ∧
     (getSvgA parseNone defaultOptions elPlain (.ok "x")).2 = none ∧
     (getSvgA parseNone defaultOptions elPlain (.ok "x")).1.all
        (fun e => !(isSwapEv e)) = true ∧
     (elPlain.hasParent = true →
        replaceImgWithSvg elPlain none = .error JsError.typeError) ∧
     ((truthy elPlain.dataset.removeAttrs = false ∧
       truthy elPlain.dataset.removeScripts = false ∧
       truthy elPlain.dataset.addAttrs = false ∧
       truthy elPlain.dataset.setSvgSize = false ∧
       elPlain.hasParent = false) →
        replaceImgWithSvg elPlain none = .ok none)) :=
  ⟨rfl, parse_failure_no_substitution parseNone defaultOptions elPlain "x" rfl⟩

/-- C8: a non-null options argument is stored as is, with no merging of
defaults; the class added on trigger is exactly the loadingClass of the
stored options; an absent loadingClass reaches classList.add as undefined
(the token "undefined"), which differs from the default "js-svg-loading";
a present loadingClass is used verbatim. -/
theorem options_not_merged (o : Options) (parse : String → Option Node)
    (el : Element) (f : FetchOutcome) :
    constructorOptions (some o) = o ∧
    (getSvgA parse o el f).1.head? =
      some (.addClass (jsString o.loadingClass)) ∧
    jsString none = "undefined" ∧
    ("undefined" == "js-svg-loading") = false ∧
    (∀ s : String, jsString (some s) = s) := by
  refine ⟨rfl, ?_, rfl, rfl, fun s => rfl⟩
  cases f with
  | netError => rfl
  | notOk status => rfl
  | ok body =>
    cases h : replaceImgWithSvg el (parse body) with
    | error e => simp [getSvgA, h]
    | ok res => cases res <;> simp [getSvgA, h]

/-- C9: the size and script flags are decided only by string truthiness:
an absent or empty dataset value leaves the step a no-op, while any
non-empty value, the strings "false" and "0" included, makes the step
transform the root; on present strings truthy is exactly non-emptiness,
and on an absent value it is false. -/
theorem flags_by_truthiness (ds : Dataset) (el : Element) (n : Node) :
    setSvgSizeStep { ds with setSvgSize := none } el (some n) = .ok (some n) ∧
    setSvgSizeStep { ds with setSvgSize := some "" } el (some n) = .ok (some n) ∧
    setSvgSizeStep { ds with setSvgSize := some "false" } el (some n) =
      .ok (some (setSvgSizeNode el n)) ∧
    setSvgSizeStep { ds with setSvgSize := some "0" } el (some n) =
      .ok (some (setSvgSizeNode el n)) ∧
    removeScriptsStep { ds with removeScripts := none } (some n) =
      .ok (some n) ∧
    removeScriptsStep { ds with removeScripts := some "" } (some n) =
      .ok (some n) ∧
    removeScriptsStep { ds with removeScripts := some "false" } (some n) =
      .ok (some (removeScriptsNode n)) ∧
    removeScriptsStep { ds with removeScripts := some "0" } (some n) =
      .ok (some (removeScriptsNode n)) ∧
    (∀ v : String, truthy (some v) = !(v == "")) ∧
    truthy none = false :=
  ⟨rfl, rfl, rfl, rfl, rfl, rfl, rfl, rfl, fun v => rfl, rfl⟩

/-- C10: the URL handed to fetch is the dataset src with no validation:
with the attribute absent, both variants still add the loading class first
and then issue the fetch with an undefined URL, instead of skipping the
attempt. -/
theorem fetch_without_src (parse : String → Option Node) (opts : Options)
    (el : Element) (f : FetchOutcome) (h : el.dataset.src = none) :
    (getSvgA parse opts el f).1.take 2 =
      [.addClass (jsString opts.loadingClass), .fetchIssued none] ∧
    (getSvgB parse opts el f).1.take 2 =
      [.addClass (jsString opts.loadingClass), .fetchIssued none] := by
  constructor
  · cases f with
    | netError => simp [getSvgA, h]
    | notOk status => simp [getSvgA, h]
    | ok body =>
      cases hr : replaceImgWithSvg el (parse body) with
      | error e => simp [getSvgA, h, hr]
      | ok res => cases res <;> simp [getSvgA, h, hr]
  · cases f with
    | netError => simp [getSvgB, h]
    | notOk status => simp [getSvgB, h]
    | ok body =>
      cases hr : replaceImgWithSvg el (parse body) with
      | error e => simp [getSvgB, h, hr]
      | ok res => cases res <;> simp [getSvgB, h, hr]

/-- Witness for C10 at a concrete placeholder with no data-src. -/
theorem fetch_without_src_witness :
    elNoSrc.dataset.src = none ∧
    ((getSvgA parseSvgOnly defaultOptions elNoSrc .netError).1.take 2 =
        [.addClass (jsString defaultOptions.loadingClass), .fetchIssued none] ∧
     (getSvgB parseSvgOnly defaultOptions elNoSrc .netError).1.take 2 =
        [.addClass (jsString defaultOptions.loadingClass), .fetchIssued none]) :=
  ⟨rfl, fetch_without_src parseSvgOnly defaultOptions elNoSrc .netError rfl⟩
